import Mathlib

/-!
Verification development for pg_auto_failover.

Part 1 models the monitor's catalog and its stored functions
(`register_node`, `node_active`, `get_primary`, `remove_node`).  The
implementation of these stored functions (the `pgautofailover` extension)
is not part of the source tree here; only its regression-test expected
output `src/monitor/expected/monitor.out` is.  Those definitions are
therefore modelled from the specification's data model (spec section 3),
assignment rules (spec section 4.1) and API description (spec section 6),
and validated against the literal traces of `monitor.out`.

Part 2 embeds the client-side functions of
`src/bin/pg_autoctl/pgsql.c` (single-value result parsing, the
connection retry loop, error classification of CREATE EXTENSION /
DATABASE / USER, the conninfo escaping helpers) directly from the C
source.  External C library behaviour (libc `strtod`/`strtoull` and
`errno`, libpq ping/connection status and conninfo parsing) is made an
explicit parameter of each definition.
-/

/-- Modelled from the spec: the closed enum of FSM node states
(spec section 4.1, "States"). -/
inductive NodeState
  | init
  | single
  | wait_primary
  | primary
  | join_primary
  | apply_settings
  | wait_standby
  | catchingup
  | secondary
  | prepare_promotion
  | stop_replication
  | wait_maintenance
  | maintenance
  | draining
  | demote_timeout
  | demoted
  | demote
  | report_lsn
  | join_secondary
  | fast_forward
  | dropped
  deriving DecidableEq, Repr

/-- Modelled from the spec: writable states are `single`, `wait_primary`,
`primary`, `join_primary`, `apply_settings` (spec section 4.1). -/
def isWritableState : NodeState → Bool
  | NodeState.single => true
  | NodeState.wait_primary => true
  | NodeState.primary => true
  | NodeState.join_primary => true
  | NodeState.apply_settings => true
  | _ => false

/-- Modelled from the spec: a row of `pgautofailover.formation`
(spec section 3, "Formation"; columns as dumped in `monitor.out`). -/
structure Formation where
  formationid : String
  kind : String
  dbname : String
  opt_secondary : Bool
  number_sync_standbys : Nat
  deriving DecidableEq, Repr

/-- Modelled from the spec: a row of `pgautofailover.node`
(spec section 3, "Node"; only the columns the claims depend on). -/
structure PgNode where
  nodeid : Nat
  nodename : String
  formationid : String
  groupid : Int
  nodehost : String
  nodeport : Nat
  goalstate : NodeState
  reportedstate : NodeState
  candidate_priority : Nat
  replication_quorum : Bool
  deriving DecidableEq, Repr

/-- Modelled from the spec: the monitor's catalog state: the formation
table, the node table, and the monotonic node-id sequence
(spec section 3, "Lifecycles": ids are monitor-assigned and monotonic). -/
structure MonitorState where
  formations : List Formation
  nodes : List PgNode
  nextNodeId : Nat
  deriving DecidableEq, Repr

/-- Modelled from the spec: the row returned by `register_node`
(spec section 6 and the `monitor.out` record layout). -/
structure RegisterResult where
  assigned_node_id : Nat
  assigned_group_id : Int
  assigned_group_state : NodeState
  assigned_candidate_priority : Nat
  assigned_replication_quorum : Bool
  assigned_node_name : String
  deriving DecidableEq, Repr

/-- Modelled from the spec: the row returned by `node_active`
(spec section 6 and the `monitor.out` record layout). -/
structure NodeActiveResult where
  assigned_node_id : Nat
  assigned_group_id : Int
  assigned_group_state : NodeState
  assigned_candidate_priority : Nat
  assigned_replication_quorum : Bool
  deriving DecidableEq, Repr

/-- Nodes of one group of one formation (all nodes share group 0 in the
single-group formations exercised by `monitor.out`). -/
def groupNodes (s : MonitorState) (formationId : String) (groupId : Int) : List PgNode :=
  s.nodes.filter fun n => n.formationid = formationId ∧ n.groupid = groupId

/-- Modelled from the spec: `register_node` assigns the next `node_id`,
derives `node_name` as `node_<id>`, places the node at the correct initial
state (`single` for the first node of a group, `wait_standby` afterwards)
with a fresh `reported_state` of `init`, default candidate priority 100 and
replication quorum true, and returns its assignment
(spec sections 4.1 rules 1-2, 4.3 and 6; validated against `monitor.out`). -/
def register_node (s : MonitorState) (formationId : String) (host : String)
    (port : Nat) (_dbname : String) : RegisterResult × MonitorState :=
  let nid := s.nextNodeId
  let name := "node_" ++ Nat.repr nid
  let groupId : Int := 0
  let st := if (groupNodes s formationId groupId).isEmpty then
      NodeState.single
    else
      NodeState.wait_standby
  let node : PgNode :=
    { nodeid := nid
      nodename := name
      formationid := formationId
      groupid := groupId
      nodehost := host
      nodeport := port
      goalstate := st
      reportedstate := NodeState.init
      candidate_priority := 100
      replication_quorum := true }
  let result : RegisterResult :=
    { assigned_node_id := nid
      assigned_group_id := groupId
      assigned_group_state := st
      assigned_candidate_priority := 100
      assigned_replication_quorum := true
      assigned_node_name := name }
  (result, { s with nodes := s.nodes ++ [node], nextNodeId := nid + 1 })

/-- The `number_sync_standbys` of a formation, by name. -/
def formationNumberSyncStandbys (s : MonitorState) (formationId : String) : Nat :=
  match s.formations.find? (fun f => f.formationid = formationId) with
  | some f => f.number_sync_standbys
  | none => 0

/-- Modelled from the spec: the assignment rules the monitor evaluates on a
`node_active` call (spec section 4.1, rules 1-4), for the calling node with
its just-persisted reported state:
rule 1: a node alone in its group is assigned `single`;
rule 2: a node reporting `single` with peers present is assigned
`wait_primary`;
rule 3: a node reporting `wait_standby` is assigned `catchingup` once the
primary has reported `wait_primary`;
rule 4: a node reporting `wait_primary` is assigned `primary` once at least
`number_sync_standbys` peers have reported `secondary`, and stays
`wait_primary` below that threshold;
otherwise the goal state is left unchanged. -/
def assignGoalState (s : MonitorState) (node : PgNode) (reported : NodeState) : NodeState :=
  let peers := (groupNodes s node.formationid node.groupid).filter
    fun m => ¬ m.nodeid = node.nodeid
  if peers.isEmpty then
    NodeState.single
  else if reported = NodeState.single then
    NodeState.wait_primary
  else if reported = NodeState.wait_standby ∧
      peers.any (fun m => m.reportedstate = NodeState.wait_primary) then
    NodeState.catchingup
  else if reported = NodeState.wait_primary then
    if formationNumberSyncStandbys s node.formationid ≤
        (peers.filter (fun m => m.reportedstate = NodeState.secondary)).length then
      NodeState.primary
    else
      NodeState.wait_primary
  else
    node.goalstate

/-- Modelled from the spec: `node_active` persists the reported state of
the calling node, evaluates the assignment rules against the group, persists
the new goal state and returns it (spec section 4.3).  An unknown
(formation, node, group) triple is an error: the result is `none` and the
catalog is unchanged. -/
def node_active (s : MonitorState) (formationId : String) (nodeId : Nat)
    (groupId : Int) (reported : NodeState) : Option NodeActiveResult × MonitorState :=
  match s.nodes.find? (fun n =>
      n.nodeid = nodeId ∧ n.formationid = formationId ∧ n.groupid = groupId) with
  | none => (none, s)
  | some node =>
    let reportedNode := { node with reportedstate := reported }
    let sReported : MonitorState :=
      { s with nodes := s.nodes.map fun m =>
          if m.nodeid = nodeId then reportedNode else m }
    let goal := assignGoalState sReported reportedNode reported
    let result : NodeActiveResult :=
      { assigned_node_id := node.nodeid
        assigned_group_id := node.groupid
        assigned_group_state := goal
        assigned_candidate_priority := node.candidate_priority
        assigned_replication_quorum := node.replication_quorum }
    (some result,
      { sReported with nodes := sReported.nodes.map fun m =>
          if m.nodeid = nodeId then { reportedNode with goalstate := goal } else m })

/-- Modelled from the spec: `get_primary(formation, group)` returns the
`(node_id, name, host, port)` of the writable node of the group and errors
with `group has no writable node right now` when none exists
(spec section 6; error shown twice in `monitor.out`). -/
def get_primary (s : MonitorState) (formationId : String) (groupId : Int) :
    Except String (Nat × String × String × Nat) :=
  match s.nodes.find? (fun n =>
      n.formationid = formationId ∧ n.groupid = groupId ∧
      isWritableState n.goalstate) with
  | some n => Except.ok (n.nodeid, n.nodename, n.nodehost, n.nodeport)
  | none => Except.error "group has no writable node right now"

/-- Modelled from the spec: `remove_node(n)` deletes the node's row; when
`n` was the group's primary (a writable goal state) it initiates failover,
assigning every remaining node of the group `report_lsn` (spec section 4.1
rules 6 and 8).  The accompanying update of the formation row, lowering
`number_sync_standbys` from 1 to 0 when the primary is removed, is absent
from the spec and is modelled from the expected output `monitor.out`
(formation dumps before and after `remove_node(1)`).  The call returns true
when the node existed, and true under `force` even when it did not, as in
the second `remove_node(1, force => true)` call of `monitor.out`. -/
def remove_node (s : MonitorState) (nodeId : Nat) (force : Bool) : Bool × MonitorState :=
  match s.nodes.find? (fun n => n.nodeid = nodeId) with
  | none => (force, s)
  | some node =>
    let others := s.nodes.filter fun m => ¬ m.nodeid = nodeId
    if isWritableState node.goalstate then
      (true,
        { s with
            nodes := others.map fun m =>
              if m.formationid = node.formationid ∧ m.groupid = node.groupid then
                { m with goalstate := NodeState.report_lsn }
              else m
            formations := s.formations.map fun f =>
              if f.formationid = node.formationid ∧ f.number_sync_standbys = 1 then
                { f with number_sync_standbys := 0 }
              else f })
    else
      (true, { s with nodes := others })

/-- Modelled from the spec: the monitor's catalog as created by the
extension, before any node registers: the formation `default` of kind
`pgsql` on database `postgres`, keeping standbys, with one synchronous
standby required (the formation dump of `monitor.out`), an empty node
table, and node ids starting at 1. -/
def initialMonitorState : MonitorState :=
  { formations :=
      [{ formationid := "default"
         kind := "pgsql"
         dbname := "postgres"
         opt_secondary := true
         number_sync_standbys := 1 }]
    nodes := []
    nextNodeId := 1 }

/-- Scenario A step 1: `register_node('default','localhost',9876,'postgres')`. -/
def sA1 : RegisterResult × MonitorState :=
  register_node initialMonitorState "default" "localhost" 9876 "postgres"

/-- Scenario A step 2: node_1 reports `single`. -/
def sA2 : Option NodeActiveResult × MonitorState :=
  node_active sA1.2 "default" 1 0 NodeState.single

/-- Scenario A step 3: `register_node('default','localhost',9877,'postgres')`. -/
def sA3 : RegisterResult × MonitorState :=
  register_node sA2.2 "default" "localhost" 9877 "postgres"

/-- Scenario A step 4: node_2 reports `wait_standby` already. -/
def sA4 : Option NodeActiveResult × MonitorState :=
  node_active sA3.2 "default" 2 0 NodeState.wait_standby

/-- Scenario A step 5: node_1 reports `single` again. -/
def sA5 : Option NodeActiveResult × MonitorState :=
  node_active sA4.2 "default" 1 0 NodeState.single

/-- Scenario A step 6: node_1 now reports `wait_primary`. -/
def sA6 : Option NodeActiveResult × MonitorState :=
  node_active sA5.2 "default" 1 0 NodeState.wait_primary

/-- Scenario A step 7: node_2 reports `wait_standby` again. -/
def sA7 : Option NodeActiveResult × MonitorState :=
  node_active sA6.2 "default" 2 0 NodeState.wait_standby

/-- Scenario continuation: `register_node('default','localhost',9879,'postgres')`
admitting node_3, as in `monitor.out`. -/
def sA8 : RegisterResult × MonitorState :=
  register_node sA7.2 "default" "localhost" 9879 "postgres"

/-- Claim C1: bootstrap of a single-node formation then admission of a
standby follows Scenario A exactly: the first `register_node` returns
node_id 1, name `node_1` and goal `single`; the second returns node_id 2,
name `node_2` and goal `wait_standby`; after that the primary's next
`node_active` reporting `single` is assigned `wait_primary`, and the
standby's `node_active` reporting `wait_standby`, once the primary has
reported `wait_primary`, is assigned `catchingup`. -/
theorem scenarioA_bootstrap_assignments :
    sA1.1 = { assigned_node_id := 1
              assigned_group_id := 0
              assigned_group_state := NodeState.single
              assigned_candidate_priority := 100
              assigned_replication_quorum := true
              assigned_node_name := "node_1" } ∧
    sA3.1 = { assigned_node_id := 2
              assigned_group_id := 0
              assigned_group_state := NodeState.wait_standby
              assigned_candidate_priority := 100
              assigned_replication_quorum := true
              assigned_node_name := "node_2" } ∧
    (sA5.1.map fun r => r.assigned_group_state) = some NodeState.wait_primary ∧
    (sA6.1.map fun r => r.assigned_group_state) = some NodeState.wait_primary ∧
    (sA7.1.map fun r => r.assigned_group_state) = some NodeState.catchingup := by
  refine ⟨?_, ?_, ?_, ?_, ?_⟩ <;> decide

/-- Claim C2: `get_primary` on a formation/group with no node in a writable
state (including unknown formation names and non-existent group ids) raises
exactly the error `group has no writable node right now`; when the group
does contain a writable node, it returns that node's id, name, host and
port. -/
theorem get_primary_writable_spec (s : MonitorState) (f : String) (g : Int) :
    (get_primary s f g = Except.error "group has no writable node right now" ↔
      ∀ n ∈ s.nodes, n.formationid = f → n.groupid = g →
        isWritableState n.goalstate = false) ∧
    (∀ n ∈ s.nodes, n.formationid = f → n.groupid = g →
      isWritableState n.goalstate = true →
      (∀ m ∈ s.nodes, m.formationid = f → m.groupid = g →
        isWritableState m.goalstate = true → m = n) →
      get_primary s f g = Except.ok (n.nodeid, n.nodename, n.nodehost, n.nodeport)) := by
  constructor
  · constructor
    · intro h n hn hf hg
      cases hfind : s.nodes.find? (fun n =>
          n.formationid = f ∧ n.groupid = g ∧ isWritableState n.goalstate) with
      | some m => rw [get_primary, hfind] at h; exact absurd h (by simp)
      | none =>
        have hnp := List.find?_eq_none.mp hfind n hn
        simp only [hf, hg, decide_eq_true_eq, not_and, true_and] at hnp
        simp only [Bool.not_eq_true] at hnp
        simpa using hnp
    · intro h
      rw [get_primary]
      cases hfind : s.nodes.find? (fun n =>
          n.formationid = f ∧ n.groupid = g ∧ isWritableState n.goalstate) with
      | none => rfl
      | some m =>
        have hp := List.find?_some hfind
        have hm := List.mem_of_find?_eq_some hfind
        simp only [decide_eq_true_eq] at hp
        exact absurd (h m hm hp.1 hp.2.1) (by simp [hp.2.2])
  · intro n hn hf hg hw huniq
    have hsome : (s.nodes.find? (fun n =>
        n.formationid = f ∧ n.groupid = g ∧ isWritableState n.goalstate)).isSome :=
      List.find?_isSome.mpr ⟨n, hn, by simp [hf, hg, hw]⟩
    cases hfind : s.nodes.find? (fun n =>
        n.formationid = f ∧ n.groupid = g ∧ isWritableState n.goalstate) with
    | none => rw [hfind] at hsome; exact absurd hsome (by simp)
    | some m =>
      have hp := List.find?_some hfind
      have hm := List.mem_of_find?_eq_some hfind
      simp only [decide_eq_true_eq] at hp
      have := huniq m hm hp.1 hp.2.1 hp.2.2
      subst this
      rw [get_primary, hfind]

/-- Witness for C2: in the three-node scenario state, `get_primary` returns
the wait_primary node node_1, and errors on an unknown formation. -/
theorem get_primary_writable_spec_witness :
    get_primary sA8.2 "default" 0 = Except.ok (1, "node_1", "localhost", 9876) ∧
    get_primary sA8.2 "unknown formation" 0 =
      Except.error "group has no writable node right now" := by
  constructor
  · exact (get_primary_writable_spec sA8.2 "default" 0).2
      { nodeid := 1
        nodename := "node_1"
        formationid := "default"
        groupid := 0
        nodehost := "localhost"
        nodeport := 9876
        goalstate := NodeState.wait_primary
        reportedstate := NodeState.wait_primary
        candidate_priority := 100
        replication_quorum := true }
      (by decide) rfl rfl rfl (by decide)
  · exact (get_primary_writable_spec sA8.2 "unknown formation" 0).1.mpr (by decide)

/-- In a node table whose entry `n` has a unique node id, `find?` by that id
returns `n` itself. -/
theorem find_node_by_id_self (s : MonitorState) (n : PgNode) (hn : n ∈ s.nodes)
    (huniq : ∀ m ∈ s.nodes, m.nodeid = n.nodeid → m = n) :
    s.nodes.find? (fun m => m.nodeid = n.nodeid) = some n := by
  have hsome : (s.nodes.find? (fun m => m.nodeid = n.nodeid)).isSome :=
    List.find?_isSome.mpr ⟨n, hn, by simp⟩
  cases hfind : s.nodes.find? (fun m => m.nodeid = n.nodeid) with
  | none => rw [hfind] at hsome; exact absurd hsome (by simp)
  | some m =>
    have hp := List.find?_some hfind
    have hm := List.mem_of_find?_eq_some hfind
    simp only [decide_eq_true_eq] at hp
    rw [huniq m hm hp]

/-- Claim C3: `remove_node` on the primary of a group that also contains
standby nodes returns true, and every remaining node of that group has its
goal state set to `report_lsn` (the failover-initiation branch). -/
theorem remove_node_primary_assigns_report_lsn (s : MonitorState) (n : PgNode)
    (hn : n ∈ s.nodes)
    (huniq : ∀ m ∈ s.nodes, m.nodeid = n.nodeid → m = n)
    (hw : isWritableState n.goalstate = true)
    (hpeer : ∃ m ∈ s.nodes, ¬ m.nodeid = n.nodeid ∧
      m.formationid = n.formationid ∧ m.groupid = n.groupid) :
    (remove_node s n.nodeid false).1 = true ∧
    ∀ m ∈ (remove_node s n.nodeid false).2.nodes,
      m.formationid = n.formationid → m.groupid = n.groupid →
      m.goalstate = NodeState.report_lsn := by
  rw [remove_node, find_node_by_id_self s n hn huniq]
  simp only [hw, if_true]
  refine ⟨by trivial, ?_⟩
  intro m hm hmf hmg
  simp only [List.mem_map] at hm
  obtain ⟨m0, hm0, heq⟩ := hm
  by_cases hc : m0.formationid = n.formationid ∧ m0.groupid = n.groupid
  · rw [if_pos hc] at heq
    rw [← heq]
  · rw [if_neg hc] at heq
    subst heq
    exact absurd ⟨hmf, hmg⟩ hc

/-- Witness for C3: removing node_1, the wait_primary of the three-node
scenario state, returns true and leaves node_2 and node_3 with goal
`report_lsn`, as in the node-table dump of `monitor.out`. -/
theorem remove_node_primary_assigns_report_lsn_witness :
    (remove_node sA8.2 1 false).1 = true ∧
    ∀ m ∈ (remove_node sA8.2 1 false).2.nodes,
      m.formationid = "default" → m.groupid = 0 →
      m.goalstate = NodeState.report_lsn :=
  remove_node_primary_assigns_report_lsn sA8.2
    { nodeid := 1
      nodename := "node_1"
      formationid := "default"
      groupid := 0
      nodehost := "localhost"
      nodeport := 9876
      goalstate := NodeState.wait_primary
      reportedstate := NodeState.wait_primary
      candidate_priority := 100
      replication_quorum := true }
    (by decide) (by decide) (by decide) (by decide)

/-- Claim C10: `remove_node` of a primary is not confined to the node
table: every formation row after the call comes from a row of the old
formation table with `formationid`, `kind`, `dbname` and `opt_secondary`
unchanged; the row of the removed primary's formation has
`number_sync_standbys` lowered from 1 to 0, and rows of other formations
keep their `number_sync_standbys`. -/
theorem remove_node_updates_formation (s : MonitorState) (n : PgNode)
    (hn : n ∈ s.nodes)
    (huniq : ∀ m ∈ s.nodes, m.nodeid = n.nodeid → m = n)
    (hw : isWritableState n.goalstate = true) :
    ∀ f ∈ (remove_node s n.nodeid false).2.formations,
      ∃ f0 ∈ s.formations,
        f.formationid = f0.formationid ∧ f.kind = f0.kind ∧
        f.dbname = f0.dbname ∧ f.opt_secondary = f0.opt_secondary ∧
        ((f0.formationid = n.formationid ∧ f0.number_sync_standbys = 1) →
          f.number_sync_standbys = 0) ∧
        (¬ (f0.formationid = n.formationid ∧ f0.number_sync_standbys = 1) →
          f.number_sync_standbys = f0.number_sync_standbys) := by
  rw [remove_node, find_node_by_id_self s n hn huniq]
  simp only [hw, if_true]
  intro f hf
  simp only [List.mem_map] at hf
  obtain ⟨f0, hf0, heq⟩ := hf
  refine ⟨f0, hf0, ?_⟩
  by_cases hc : f0.formationid = n.formationid ∧ f0.number_sync_standbys = 1
  · rw [if_pos hc] at heq
    subst heq
    exact ⟨rfl, rfl, rfl, rfl, fun _ => rfl, fun h => absurd hc h⟩
  · rw [if_neg hc] at heq
    subst heq
    exact ⟨rfl, rfl, rfl, rfl, fun h => absurd h hc, fun _ => rfl⟩

/-- Witness for C10: removing node_1 from the three-node scenario state
turns the catalog's one formation row into the `default` row with
`number_sync_standbys = 0` and everything else untouched, as in the
formation dump of `monitor.out`: the theorem applied to that concrete
row. -/
theorem remove_node_updates_formation_witness :
    ∃ f0 ∈ sA8.2.formations,
      "default" = f0.formationid ∧ "pgsql" = f0.kind ∧
      "postgres" = f0.dbname ∧ true = f0.opt_secondary ∧
      ((f0.formationid = "default" ∧ f0.number_sync_standbys = 1) →
        (0 : Nat) = 0) ∧
      (¬ (f0.formationid = "default" ∧ f0.number_sync_standbys = 1) →
        (0 : Nat) = f0.number_sync_standbys) :=
  remove_node_updates_formation sA8.2
    { nodeid := 1
      nodename := "node_1"
      formationid := "default"
      groupid := 0
      nodehost := "localhost"
      nodeport := 9876
      goalstate := NodeState.wait_primary
      reportedstate := NodeState.wait_primary
      candidate_priority := 100
      replication_quorum := true }
    (by decide) (by decide) (by decide)
    { formationid := "default"
      kind := "pgsql"
      dbname := "postgres"
      opt_secondary := true
      number_sync_standbys := 0 }
    (by decide)

/-- The `QueryResultType` enum of `pgsql.h`, selecting how
`parseSingleValueResult` interprets the first column of the first row. -/
inductive QueryResultType
  | PGSQL_RESULT_BOOL
  | PGSQL_RESULT_INT
  | PGSQL_RESULT_BIGINT
  | PGSQL_RESULT_STRING
  deriving DecidableEq, Repr

/-- A libpq `PGresult` as `parseSingleValueResult` sees it: the number of
tuples and the value `PQgetvalue(result, 0, 0)` of its first cell. -/
structure PGresultModel where
  ntuples : Nat
  value00 : String
  deriving DecidableEq, Repr

/-- The behaviour of the C library conversions used by
`parseSingleValueResult`: the value `strtod`/`strtoull` return for a given
input string, and whether `errno` is non-zero after the call.  These live
in libc, outside the repository, so they are parameters of the model. -/
structure CLibEnv where
  strtod : String → Int
  errnoAfterStrtod : String → Bool
  strtoull : String → Nat
  errnoAfterStrtoull : String → Bool

/-- The `SingleValueResultContext` struct of `pgsql.h`: the requested
result type, the parse flag, and the four result slots.  `strVal` is an
`Option` because the C field is a pointer that is NULL until `strdup`. -/
structure SingleValueResultContext where
  resultType : QueryResultType
  parsedOk : Bool
  boolVal : Bool
  intVal : Int
  bigint : Nat
  strVal : Option String
  deriving DecidableEq, Repr

/-- Embedding of `parseSingleValueResult` (pgsql.c lines 44-95), kept
faithful to the C switch: the `PGSQL_RESULT_INT` and `PGSQL_RESULT_BIGINT`
error branches assign `parsedOk = false` and are then overwritten by the
unconditional `parsedOk = true` that follows, and the
`PGSQL_RESULT_BIGINT` case has no `break` so execution falls through into
the `PGSQL_RESULT_STRING` case.  When `PQntuples` is not 1 the context is
left untouched. -/
def parseSingleValueResult (env : CLibEnv) (ctx : SingleValueResultContext)
    (result : PGresultModel) : SingleValueResultContext :=
  if result.ntuples = 1 then
    let value := result.value00
    match ctx.resultType with
    | QueryResultType.PGSQL_RESULT_BOOL =>
      { ctx with boolVal := value == "t", parsedOk := true }
    | QueryResultType.PGSQL_RESULT_INT =>
      let c1 : SingleValueResultContext := { ctx with intVal := env.strtod value }
      let c2 : SingleValueResultContext :=
        if c1.intVal = (0 : Int) ∧ env.errnoAfterStrtod value then
          { c1 with parsedOk := false }
        else c1
      { c2 with parsedOk := true }
    | QueryResultType.PGSQL_RESULT_BIGINT =>
      let c1 : SingleValueResultContext := { ctx with bigint := env.strtoull value }
      let c2 : SingleValueResultContext :=
        if c1.bigint = (0 : Nat) ∧ env.errnoAfterStrtoull value then
          { c1 with parsedOk := false }
        else c1
      let c3 : SingleValueResultContext := { c2 with parsedOk := true }
      { c3 with strVal := some value, parsedOk := true }
    | QueryResultType.PGSQL_RESULT_STRING =>
      { ctx with strVal := some value, parsedOk := true }
  else ctx

/-- Claim C6: for every one-row result parsed with result type
`PGSQL_RESULT_BIGINT`, the missing `break` makes execution fall through
into the `PGSQL_RESULT_STRING` case: after storing the parsed bigint the
function also overwrites `strVal` with a copy of the raw value and sets
`parsedOk` exactly as the STRING case does. -/
theorem parse_bigint_falls_through_to_string (env : CLibEnv)
    (ctx : SingleValueResultContext) (result : PGresultModel)
    (h1 : result.ntuples = 1)
    (h2 : ctx.resultType = QueryResultType.PGSQL_RESULT_BIGINT) :
    parseSingleValueResult env ctx result =
      { ctx with
          bigint := env.strtoull result.value00
          strVal := some result.value00
          parsedOk := true } := by
  rw [parseSingleValueResult, if_pos h1, h2]
  by_cases hc : env.strtoull result.value00 = 0 ∧
      env.errnoAfterStrtoull result.value00
  · simp only [hc, and_self, if_pos]
  · simp only [if_neg hc]

/-- Witness for C6: a concrete one-row bigint result ends with `strVal`
holding the raw text and `parsedOk` true. -/
theorem parse_bigint_falls_through_to_string_witness :
    parseSingleValueResult
      { strtod := fun _ => 0
        errnoAfterStrtod := fun _ => false
        strtoull := fun _ => 1234
        errnoAfterStrtoull := fun _ => false }
      { resultType := QueryResultType.PGSQL_RESULT_BIGINT
        parsedOk := false
        boolVal := false
        intVal := 0
        bigint := 0
        strVal := none }
      { ntuples := 1, value00 := "1234" } =
      { resultType := QueryResultType.PGSQL_RESULT_BIGINT
        parsedOk := true
        boolVal := false
        intVal := 0
        bigint := 1234
        strVal := some "1234" } :=
  parse_bigint_falls_through_to_string _ _ _ rfl rfl

/-- Claim C9: for every one-row result of type `PGSQL_RESULT_INT` or
`PGSQL_RESULT_BIGINT`, `parseSingleValueResult` ends with `parsedOk = true`
even when the numeric conversion failed (value 0 with errno set): the
`parsedOk = false` assignment of the error branch is unconditionally
overwritten by the `parsedOk = true` that follows it. -/
theorem numeric_parse_failure_reports_ok (env : CLibEnv)
    (ctx : SingleValueResultContext) (result : PGresultModel)
    (h1 : result.ntuples = 1)
    (h2 : ctx.resultType = QueryResultType.PGSQL_RESULT_INT ∨
      ctx.resultType = QueryResultType.PGSQL_RESULT_BIGINT) :
    (parseSingleValueResult env ctx result).parsedOk = true := by
  rw [parseSingleValueResult, if_pos h1]
  rcases h2 with h2 | h2 <;> rw [h2] <;> dsimp only <;> split <;> rfl

/-- Witness for C9: a one-row int result whose text does not parse
(`strtod` returns 0 with errno set) still comes back with
`parsedOk = true`. -/
theorem numeric_parse_failure_reports_ok_witness :
    (parseSingleValueResult
      { strtod := fun _ => 0
        errnoAfterStrtod := fun _ => true
        strtoull := fun _ => 0
        errnoAfterStrtoull := fun _ => true }
      { resultType := QueryResultType.PGSQL_RESULT_INT
        parsedOk := false
        boolVal := false
        intVal := 0
        bigint := 0
        strVal := none }
      { ntuples := 1, value00 := "not a number" }).parsedOk = true :=
  numeric_parse_failure_reports_ok _ _ _ rfl (Or.inl rfl)

/-- The libpq `ExecStatusType` values distinguished by `pgsql.c`. -/
inductive ExecStatusType
  | PGRES_EMPTY_QUERY
  | PGRES_COMMAND_OK
  | PGRES_TUPLES_OK
  | PGRES_COPY_OUT
  | PGRES_COPY_IN
  | PGRES_BAD_RESPONSE
  | PGRES_NONFATAL_ERROR
  | PGRES_FATAL_ERROR
  | PGRES_SINGLE_TUPLE
  deriving DecidableEq, Repr

/-- Embedding of `is_response_ok` (pgsql.c lines 429-436): a result is ok
when its status is `PGRES_SINGLE_TUPLE`, `PGRES_TUPLES_OK` or
`PGRES_COMMAND_OK`. -/
def is_response_ok (status : ExecStatusType) : Bool :=
  match status with
  | ExecStatusType.PGRES_SINGLE_TUPLE => true
  | ExecStatusType.PGRES_TUPLES_OK => true
  | ExecStatusType.PGRES_COMMAND_OK => true
  | _ => false

/-- The SQLSTATE `42710` (`ERRCODE_DUPLICATE_OBJECT`, pgsql.c line 22). -/
def ERRCODE_DUPLICATE_OBJECT : String := "42710"

/-- The SQLSTATE `42P04` (`ERRCODE_DUPLICATE_DATABASE`, pgsql.c line 23). -/
def ERRCODE_DUPLICATE_DATABASE : String := "42P04"

/-- C `strcmp(a, b) == 0` where `a` may be a null pointer, as in
`strcmp(PQresultErrorField(result, PG_DIAG_SQLSTATE), ...)`:
`PQresultErrorField` returns NULL when the result carries no SQLSTATE, and
`strcmp` on a null pointer is a crash, modelled as `none`. -/
def sqlstateEqualsC (sqlstate : Option String) (code : String) : Option Bool :=
  match sqlstate with
  | none => none
  | some s => some (s == code)

/-- Outcome of `pgsql_create_extension` / `pgsql_create_database` /
`pgsql_create_user` after `PQexec`: `ok` and `skippedDuplicate` return
true from the C function, `failed` returns false, and `nullDereference`
is the crash of `strcmp` applied to a NULL SQLSTATE. -/
inductive CreateResult
  | ok
  | skippedDuplicate
  | failed
  | nullDereference
  deriving DecidableEq, Repr

/-- Embedding of the error classification of `pgsql_create_extension`
(pgsql.c lines 955-979): on a failed result the SQLSTATE returned by
`PQresultErrorField` is compared with `strcmp` against
`ERRCODE_DUPLICATE_OBJECT` with no null check. -/
def pgsql_create_extension (status : ExecStatusType)
    (sqlstate : Option String) : CreateResult :=
  if is_response_ok status then CreateResult.ok
  else
    match sqlstateEqualsC sqlstate ERRCODE_DUPLICATE_OBJECT with
    | none => CreateResult.nullDereference
    | some true => CreateResult.skippedDuplicate
    | some false => CreateResult.failed

/-- Embedding of the error classification of `pgsql_create_database`
(pgsql.c lines 890-912), identical but against
`ERRCODE_DUPLICATE_DATABASE`. -/
def pgsql_create_database (status : ExecStatusType)
    (sqlstate : Option String) : CreateResult :=
  if is_response_ok status then CreateResult.ok
  else
    match sqlstateEqualsC sqlstate ERRCODE_DUPLICATE_DATABASE with
    | none => CreateResult.nullDereference
    | some true => CreateResult.skippedDuplicate
    | some false => CreateResult.failed

/-- Embedding of the error classification of `pgsql_create_user`
(pgsql.c lines 1090-1112), against `ERRCODE_DUPLICATE_OBJECT`. -/
def pgsql_create_user (status : ExecStatusType)
    (sqlstate : Option String) : CreateResult :=
  if is_response_ok status then CreateResult.ok
  else
    match sqlstateEqualsC sqlstate ERRCODE_DUPLICATE_OBJECT with
    | none => CreateResult.nullDereference
    | some true => CreateResult.skippedDuplicate
    | some false => CreateResult.failed

/-- Claim C7: when the command fails, `pgsql_create_extension` (and
likewise `pgsql_create_database` and `pgsql_create_user`) applies `strcmp`
to the SQLSTATE field with no null check, so for every failed result that
carries no SQLSTATE the duplicate-object comparison dereferences a null
pointer instead of treating the failure as an unknown error. -/
theorem create_null_sqlstate_deref (status : ExecStatusType)
    (h : is_response_ok status = false) :
    pgsql_create_extension status none = CreateResult.nullDereference ∧
    pgsql_create_database status none = CreateResult.nullDereference ∧
    pgsql_create_user status none = CreateResult.nullDereference := by
  refine ⟨?_, ?_, ?_⟩ <;>
    simp [pgsql_create_extension, pgsql_create_database, pgsql_create_user,
      sqlstateEqualsC, h]

/-- Witness for C7: a fatal error result without SQLSTATE crashes all
three classification paths. -/
theorem create_null_sqlstate_deref_witness :
    pgsql_create_extension ExecStatusType.PGRES_FATAL_ERROR none =
      CreateResult.nullDereference ∧
    pgsql_create_database ExecStatusType.PGRES_FATAL_ERROR none =
      CreateResult.nullDereference ∧
    pgsql_create_user ExecStatusType.PGRES_FATAL_ERROR none =
      CreateResult.nullDereference :=
  create_null_sqlstate_deref ExecStatusType.PGRES_FATAL_ERROR rfl

/-- How one call to `pgsql_execute_with_params` can go, seen from a
caller: the connection could not be opened, the query failed
(`is_response_ok` false), or the query succeeded producing a result that
is handed to the parse callback. -/
inductive ExecOutcome
  | connectionFailed
  | queryFailed
  | queryOk (result : PGresultModel)
  deriving DecidableEq, Repr

/-- Embedding of `pgsql_execute_with_params` (pgsql.c lines 361-422),
specialised to callers whose callback is `parseSingleValueResult`: it
returns false without invoking the callback when the connection cannot be
opened or the response is not ok, and returns true after invoking the
callback on a successful result. -/
def pgsql_execute_with_params (env : CLibEnv) (out : ExecOutcome)
    (ctx : SingleValueResultContext) : Bool × SingleValueResultContext :=
  match out with
  | ExecOutcome.connectionFailed => (false, ctx)
  | ExecOutcome.queryFailed => (false, ctx)
  | ExecOutcome.queryOk result => (true, parseSingleValueResult env ctx result)

/-- Embedding of `pgsql_get_received_lsn_from_standby` (pgsql.c lines
1459-1483): the context starts with `parsedOk = false`, the boolean
returned by `pgsql_execute_with_params` is discarded, and the function
returns (the C pair of `false`/filled buffer is modelled as an `Option`)
based solely on `parsedOk`. -/
def pgsql_get_received_lsn_from_standby (env : CLibEnv)
    (out : ExecOutcome) : Option String :=
  let context : SingleValueResultContext :=
    { resultType := QueryResultType.PGSQL_RESULT_STRING
      parsedOk := false
      boolVal := false
      intVal := 0
      bigint := 0
      strVal := none }
  let r := pgsql_execute_with_params env out context
  if r.2.parsedOk = false then none else r.2.strVal

/-- Embedding of `pgsql_has_replica` (pgsql.c lines 1127-1160): same
shape, with a boolean result slot. -/
def pgsql_has_replica (env : CLibEnv) (out : ExecOutcome) : Option Bool :=
  let context : SingleValueResultContext :=
    { resultType := QueryResultType.PGSQL_RESULT_BOOL
      parsedOk := false
      boolVal := false
      intVal := 0
      bigint := 0
      strVal := none }
  let r := pgsql_execute_with_params env out context
  if r.2.parsedOk = false then none else some r.2.boolVal

/-- Claim C8: `pgsql_get_received_lsn_from_standby` and
`pgsql_has_replica` discard the boolean returned by
`pgsql_execute_with_params`; their result depends only on
`context.parsedOk`, so a connection failure, a failed query, and a
successfully-executed query whose result is empty or unparseable (not
exactly one row) all produce the same failure return and are not
distinguished as different error kinds. -/
theorem ignored_exec_return_conflates_errors (env : CLibEnv)
    (result : PGresultModel) (h : ¬ result.ntuples = 1) :
    pgsql_get_received_lsn_from_standby env ExecOutcome.connectionFailed = none ∧
    pgsql_get_received_lsn_from_standby env ExecOutcome.queryFailed = none ∧
    pgsql_get_received_lsn_from_standby env (ExecOutcome.queryOk result) = none ∧
    pgsql_get_received_lsn_from_standby env (ExecOutcome.queryOk result) =
      pgsql_get_received_lsn_from_standby env ExecOutcome.connectionFailed ∧
    pgsql_has_replica env ExecOutcome.connectionFailed = none ∧
    pgsql_has_replica env ExecOutcome.queryFailed = none ∧
    pgsql_has_replica env (ExecOutcome.queryOk result) = none ∧
    pgsql_has_replica env (ExecOutcome.queryOk result) =
      pgsql_has_replica env ExecOutcome.connectionFailed := by
  refine ⟨rfl, rfl, ?_, ?_, rfl, rfl, ?_, ?_⟩ <;>
    simp [pgsql_get_received_lsn_from_standby, pgsql_has_replica,
      pgsql_execute_with_params, parseSingleValueResult, h]

/-- Witness for C8: with a zero-row result, both functions return the
same `none` as on a connection failure. -/
theorem ignored_exec_return_conflates_errors_witness :
    pgsql_get_received_lsn_from_standby
      { strtod := fun _ => 0
        errnoAfterStrtod := fun _ => false
        strtoull := fun _ => 0
        errnoAfterStrtoull := fun _ => false }
      ExecOutcome.connectionFailed = none ∧
    pgsql_get_received_lsn_from_standby
      { strtod := fun _ => 0
        errnoAfterStrtod := fun _ => false
        strtoull := fun _ => 0
        errnoAfterStrtoull := fun _ => false }
      ExecOutcome.queryFailed = none ∧
    pgsql_get_received_lsn_from_standby
      { strtod := fun _ => 0
        errnoAfterStrtod := fun _ => false
        strtoull := fun _ => 0
        errnoAfterStrtoull := fun _ => false }
      (ExecOutcome.queryOk { ntuples := 0, value00 := "" }) = none ∧
    pgsql_get_received_lsn_from_standby
      { strtod := fun _ => 0
        errnoAfterStrtod := fun _ => false
        strtoull := fun _ => 0
        errnoAfterStrtoull := fun _ => false }
      (ExecOutcome.queryOk { ntuples := 0, value00 := "" }) =
      pgsql_get_received_lsn_from_standby
        { strtod := fun _ => 0
          errnoAfterStrtod := fun _ => false
          strtoull := fun _ => 0
          errnoAfterStrtoull := fun _ => false }
        ExecOutcome.connectionFailed ∧
    pgsql_has_replica
      { strtod := fun _ => 0
        errnoAfterStrtod := fun _ => false
        strtoull := fun _ => 0
        errnoAfterStrtoull := fun _ => false }
      ExecOutcome.connectionFailed = none ∧
    pgsql_has_replica
      { strtod := fun _ => 0
        errnoAfterStrtod := fun _ => false
        strtoull := fun _ => 0
        errnoAfterStrtoull := fun _ => false }
      ExecOutcome.queryFailed = none ∧
    pgsql_has_replica
      { strtod := fun _ => 0
        errnoAfterStrtod := fun _ => false
        strtoull := fun _ => 0
        errnoAfterStrtoull := fun _ => false }
      (ExecOutcome.queryOk { ntuples := 0, value00 := "" }) = none ∧
    pgsql_has_replica
      { strtod := fun _ => 0
        errnoAfterStrtod := fun _ => false
        strtoull := fun _ => 0
        errnoAfterStrtoull := fun _ => false }
      (ExecOutcome.queryOk { ntuples := 0, value00 := "" }) =
      pgsql_has_replica
        { strtod := fun _ => 0
          errnoAfterStrtod := fun _ => false
          strtoull := fun _ => 0
          errnoAfterStrtoull := fun _ => false }
        ExecOutcome.connectionFailed :=
  ignored_exec_return_conflates_errors
    { strtod := fun _ => 0
      errnoAfterStrtod := fun _ => false
      strtoull := fun _ => 0
      errnoAfterStrtoull := fun _ => false }
    { ntuples := 0, value00 := "" } (by decide)

/-- The libpq `PQping` results distinguished by
`pgsql_retry_open_connection`. -/
inductive PGPing
  | PQPING_OK
  | PQPING_REJECT
  | PQPING_NO_RESPONSE
  | PQPING_NO_ATTEMPT
  deriving DecidableEq, Repr

/-- The libpq connection status after `PQconnectdb`. -/
inductive ConnStatusType
  | CONNECTION_OK
  | CONNECTION_BAD
  deriving DecidableEq, Repr

/-- The environment of one run of `pgsql_retry_open_connection`:
`ping i` is what `PQping` answers on the i-th attempt, `connStatus i` the
status of the `PQconnectdb` made after an OK ping on attempt i, and
`askedToStop i` whether `asked_to_stop || asked_to_stop_fast` is observed
after attempt i.  All three live outside the function (libpq and the
signal handlers), so they are parameters of the model.  The clock is
modelled as advancing by the sleep duration at each `sleep` call, the
loop's only suspension point. -/
structure RetryEnv where
  ping : Nat → PGPing
  connStatus : Nat → ConnStatusType
  askedToStop : Nat → Bool

/-- Why the retry loop of `pgsql_retry_open_connection` stopped. -/
inductive RetryReason
  | timedOut
  | pingOk
  | pingReject
  | pingNoAttempt
  | askedToStop
  deriving DecidableEq, Repr

/-- Snapshot at loop exit: the reason, the number of `PQping` attempts
made, the elapsed seconds `now - startTime`, and whether a working
connection was obtained (only possible through the `PQPING_OK` branch). -/
structure RetryExit where
  reason : RetryReason
  attempts : Nat
  elapsed : Nat
  connectionOk : Bool
  deriving DecidableEq, Repr

/-- Embedding of the `while (retry)` loop of
`pgsql_retry_open_connection` (pgsql.c lines 213-314).  `timeout` stands
for `POSTGRES_PING_RETRY_TIMEOUT` and `sleepTime` for
`PG_AUTOCTL_KEEPER_SLEEP_TIME`; both come from `defaults.h`, which is not
part of this source tree, so they are parameters.  Each loop iteration:
exit when the elapsed time has reached the timeout; otherwise count an
attempt and switch on `PQping` — OK tries `PQconnectdb` and stops, REJECT
and NO_ATTEMPT stop, NO_RESPONSE keeps retrying; the cooperative
asked-to-stop flag then clears `retry`; a retrying iteration sleeps.
`fuel` bounds the number of iterations evaluated; `none` means the loop
was still running after `fuel` iterations. -/
def pgsql_retry_open_connection_loop (timeout sleepTime : Nat) (env : RetryEnv) :
    Nat → Nat → Nat → Option RetryExit
  | 0, _, _ => none
  | fuel + 1, now, attempts =>
    if timeout ≤ now then
      some { reason := RetryReason.timedOut
             attempts := attempts
             elapsed := now
             connectionOk := false }
    else
      match env.ping (attempts + 1) with
      | PGPing.PQPING_OK =>
        some { reason := RetryReason.pingOk
               attempts := attempts + 1
               elapsed := now
               connectionOk := env.connStatus (attempts + 1) == ConnStatusType.CONNECTION_OK }
      | PGPing.PQPING_REJECT =>
        some { reason := RetryReason.pingReject
               attempts := attempts + 1
               elapsed := now
               connectionOk := false }
      | PGPing.PQPING_NO_ATTEMPT =>
        some { reason := RetryReason.pingNoAttempt
               attempts := attempts + 1
               elapsed := now
               connectionOk := false }
      | PGPing.PQPING_NO_RESPONSE =>
        if env.askedToStop (attempts + 1) then
          some { reason := RetryReason.askedToStop
                 attempts := attempts + 1
                 elapsed := now
                 connectionOk := false }
        else
          pgsql_retry_open_connection_loop timeout sleepTime env
            fuel (now + sleepTime) (attempts + 1)

/-- Embedding of the tail of `pgsql_retry_open_connection`: the function
returns a connection exactly when `connectionOk` was set, i.e. `some true`
models returning the connection and `some false` the `return NULL` after
the loop; `none` again means the loop did not exit within `fuel`
iterations. -/
def pgsql_retry_open_connection (timeout sleepTime : Nat) (env : RetryEnv)
    (fuel : Nat) : Option Bool :=
  (pgsql_retry_open_connection_loop timeout sleepTime env fuel 0 0).map
    fun e => e.connectionOk

/-- Soundness of an exit snapshot: the loop stopped for the reason its
inputs dictate — the elapsed time really reached the timeout, or the last
ping really answered OK / REJECT / NO_ATTEMPT, or the asked-to-stop flag
really was set. -/
def retryExitSound (timeout : Nat) (env : RetryEnv) (e : RetryExit) : Prop :=
  match e.reason with
  | RetryReason.timedOut => timeout ≤ e.elapsed
  | RetryReason.pingOk => env.ping e.attempts = PGPing.PQPING_OK
  | RetryReason.pingReject => env.ping e.attempts = PGPing.PQPING_REJECT
  | RetryReason.pingNoAttempt => env.ping e.attempts = PGPing.PQPING_NO_ATTEMPT
  | RetryReason.askedToStop => env.askedToStop e.attempts = true

/-- The retry loop exits within `fuel + 1` iterations whenever the clock
will have reached the timeout by then, and its exit snapshot is sound. -/
theorem retry_loop_exits (timeout sleepTime : Nat) (env : RetryEnv) :
    ∀ fuel now attempts, timeout ≤ now + fuel * sleepTime →
      ∃ e, pgsql_retry_open_connection_loop timeout sleepTime env
          (fuel + 1) now attempts = some e ∧ retryExitSound timeout env e := by
  intro fuel
  induction fuel with
  | zero =>
    intro now attempts h
    simp only [Nat.zero_mul, Nat.add_zero] at h
    refine ⟨_, by rw [pgsql_retry_open_connection_loop, if_pos h], ?_⟩
    exact h
  | succ fuel ih =>
    intro now attempts h
    rw [pgsql_retry_open_connection_loop]
    by_cases hnow : timeout ≤ now
    · refine ⟨_, by rw [if_pos hnow], ?_⟩
      exact hnow
    · rw [if_neg hnow]
      cases hping : env.ping (attempts + 1) with
      | PQPING_OK =>
        refine ⟨_, rfl, ?_⟩
        exact hping
      | PQPING_REJECT =>
        refine ⟨_, rfl, ?_⟩
        exact hping
      | PQPING_NO_ATTEMPT =>
        refine ⟨_, rfl, ?_⟩
        exact hping
      | PQPING_NO_RESPONSE =>
        by_cases hstop : env.askedToStop (attempts + 1)
        · refine ⟨_, by rw [if_pos hstop], ?_⟩
          simp only [retryExitSound]
          exact hstop
        · rw [if_neg hstop]
          exact ih (now + sleepTime) (attempts + 1)
            (by rw [Nat.succ_mul] at h; omega)

/-- Claim C5: the connection retry loop always terminates: with a positive
sleep interval it runs at most `timeout + 1` iterations for every
environment (every sequence of ping answers, connection statuses and
asked-to-stop flags), and the exit it reaches is sound — the elapsed time
since the first attempt reached `POSTGRES_PING_RETRY_TIMEOUT`, or the ping
answered OK, REJECT or NO_ATTEMPT, or the cooperative
`asked_to_stop`/`asked_to_stop_fast` flag was set; it never retries
forever. -/
theorem retry_open_connection_terminates (timeout sleepTime : Nat)
    (env : RetryEnv) (hs : 1 ≤ sleepTime) :
    ∃ e, pgsql_retry_open_connection_loop timeout sleepTime env
        (timeout + 1) 0 0 = some e ∧ retryExitSound timeout env e :=
  retry_loop_exits timeout sleepTime env timeout 0 0
    (by calc timeout = timeout * 1 := (Nat.mul_one timeout).symm
          _ ≤ timeout * sleepTime := Nat.mul_le_mul_left timeout hs
          _ = 0 + timeout * sleepTime := (Nat.zero_add _).symm)

/-- Witness for C5: a server that never answers and is never interrupted:
with timeout 3 and sleep 1 the loop stops by timeout after 3 attempts. -/
theorem retry_open_connection_terminates_witness :
    ∃ e, pgsql_retry_open_connection_loop 3 1
        { ping := fun _ => PGPing.PQPING_NO_RESPONSE
          connStatus := fun _ => ConnStatusType.CONNECTION_BAD
          askedToStop := fun _ => false }
        (3 + 1) 0 0 = some e ∧
      retryExitSound 3
        { ping := fun _ => PGPing.PQPING_NO_RESPONSE
          connStatus := fun _ => ConnStatusType.CONNECTION_BAD
          askedToStop := fun _ => false } e :=
  retry_open_connection_terminates 3 1
    { ping := fun _ => PGPing.PQPING_NO_RESPONSE
      connStatus := fun _ => ConnStatusType.CONNECTION_BAD
      askedToStop := fun _ => false }
    (by decide)

/-- Embedding of the character loop of `escape_conninfo_value`
(pgsql.c lines 1279-1288): single quotes and backslashes are prefixed
with a backslash, every other character is copied as is. -/
def escape_conninfo_chars : List Char → List Char
  | [] => []
  | c :: cs =>
    if c = '\'' ∨ c = '\\' then '\\' :: c :: escape_conninfo_chars cs
    else c :: escape_conninfo_chars cs

/-- Embedding of `escape_conninfo_value` (pgsql.c lines 1270-1294): the
escaped characters wrapped in single quotes.  The C function writes into
`destination` and returns the length; the model is the written string. -/
def escape_conninfo_value (value : List Char) : List Char :=
  '\'' :: escape_conninfo_chars value ++ ['\'']

/-- Embedding of `make_conninfo_field_str` (pgsql.c lines 1252-1261):
`sprintf(" %s=")` followed by the escaped value. -/
def make_conninfo_field_str (key value : List Char) : List Char :=
  ' ' :: key ++ '=' :: escape_conninfo_value value

/-- Embedding of `make_conninfo_field_int` (pgsql.c lines 1238-1242):
`sprintf(" %s=%d")`; the port values the claims concern are naturals, and
`%d` of a natural prints its decimal digits, `Nat.repr`. -/
def make_conninfo_field_int (key : List Char) (value : Nat) : List Char :=
  ' ' :: key ++ '=' :: (Nat.repr value).data

/-- ASCII printable characters, 0x20 to 0x7e. -/
def isPrintableAscii (c : Char) : Bool :=
  0x20 ≤ c.toNat && c.toNat ≤ 0x7e

/-- Modelled from the spec: characters that continue a key of a
`key=value` connection string (parsing lives in libpq's
`PQconninfoParse`, outside this repository): a key runs until the `=`
sign or a space. -/
def conninfoKeyChar (c : Char) : Bool :=
  !(c == '=' || c == ' ')

/-- Modelled from the spec: libpq's parsing of a single-quoted value,
after the opening quote: a backslash takes the following character
literally, an unescaped single quote closes the value, anything else is
kept; running out of input is an error.  Returns the value and the
remaining input. -/
def conninfo_parse_quoted : List Char → Option (List Char × List Char)
  | [] => none
  | c :: rest =>
    if c = '\\' then
      match rest with
      | [] => none
      | d :: rest2 =>
        match conninfo_parse_quoted rest2 with
        | some (v, r) => some (d :: v, r)
        | none => none
    else if c = '\'' then some ([], rest)
    else
      match conninfo_parse_quoted rest with
      | some (v, r) => some (c :: v, r)
      | none => none

/-- Modelled from the spec: an unquoted value runs to the next space. -/
def conninfo_parse_unquoted (s : List Char) : List Char × List Char :=
  (s.takeWhile (fun c => !(c == ' ')), s.dropWhile (fun c => !(c == ' ')))

/-- Modelled from the spec: a value is single-quoted when it starts with
a quote, unquoted otherwise. -/
def conninfo_parse_value : List Char → Option (List Char × List Char)
  | [] => some ([], [])
  | c :: rest =>
    if c = '\'' then conninfo_parse_quoted rest
    else some (conninfo_parse_unquoted (c :: rest))

/-- Escaping then parsing a quoted value recovers the original value and
leaves the rest of the input untouched. -/
theorem conninfo_parse_quoted_escaped (v rest : List Char) :
    conninfo_parse_quoted (escape_conninfo_chars v ++ '\'' :: rest) =
      some (v, rest) := by
  induction v with
  | nil =>
    rw [escape_conninfo_chars, List.nil_append, conninfo_parse_quoted.eq_def]
    simp
  | cons c cs ih =>
    rcases Classical.em (c = '\'' ∨ c = '\\') with hc | hc
    · have hesc : escape_conninfo_chars (c :: cs) =
          '\\' :: c :: escape_conninfo_chars cs := by
        rw [escape_conninfo_chars, if_pos hc]
      rw [hesc, List.cons_append, List.cons_append,
        conninfo_parse_quoted.eq_def]
      simp [ih]
    · push_neg at hc
      have hesc : escape_conninfo_chars (c :: cs) =
          c :: escape_conninfo_chars cs := by
        rw [escape_conninfo_chars, if_neg (by tauto)]
      rw [hesc, List.cons_append, conninfo_parse_quoted.eq_def]
      simp [hc.1, hc.2, ih]

/-- Parsing a value built by `escape_conninfo_value` recovers the
original value. -/
theorem conninfo_parse_value_escaped (v rest : List Char) :
    conninfo_parse_value (escape_conninfo_value v ++ rest) = some (v, rest) := by
  rw [escape_conninfo_value, List.cons_append, conninfo_parse_value.eq_def]
  simp [List.append_assoc, conninfo_parse_quoted_escaped]

/-- Every character `Nat.digitChar` can produce is neither a space nor a
single quote. -/
theorem digitChar_ne_space_quote (n : Nat) :
    Nat.digitChar n ≠ ' ' ∧ Nat.digitChar n ≠ '\'' := by
  rcases Nat.lt_or_ge n 16 with h | h
  · interval_cases n <;> exact ⟨by decide, by decide⟩
  · have hstar : Nat.digitChar n = '*' := by
      unfold Nat.digitChar
      repeat rw [if_neg (by omega)]
    rw [hstar]
    exact ⟨by decide, by decide⟩

/-- Characters accumulated by `Nat.toDigitsCore` over a safe accumulator
are neither spaces nor single quotes. -/
theorem toDigitsCore_ne_space_quote (b : Nat) :
    ∀ fuel n acc, (∀ c ∈ acc, c ≠ ' ' ∧ c ≠ '\'') →
      ∀ c ∈ Nat.toDigitsCore b fuel n acc, c ≠ ' ' ∧ c ≠ '\'' := by
  intro fuel
  induction fuel with
  | zero =>
    intro n acc hacc c hc
    rw [Nat.toDigitsCore] at hc
    exact hacc c hc
  | succ fuel ih =>
    intro n acc hacc c hc
    rw [Nat.toDigitsCore] at hc
    split at hc
    · rcases List.mem_cons.mp hc with rfl | hmem
      · exact digitChar_ne_space_quote _
      · exact hacc c hmem
    · refine ih _ _ ?_ c hc
      intro d hd
      rcases List.mem_cons.mp hd with rfl | hmem
      · exact digitChar_ne_space_quote _
      · exact hacc d hmem

/-- The decimal representation of a natural contains no space and no
single quote. -/
theorem repr_ne_space_quote (n : Nat) :
    ∀ c ∈ (Nat.repr n).data, c ≠ ' ' ∧ c ≠ '\'' := by
  intro c hc
  unfold Nat.repr at hc
  rw [Nat.toDigits] at hc
  exact toDigitsCore_ne_space_quote 10 (n + 1) n [] (by simp) c hc

/-- `Nat.toDigitsCore` never returns an empty list over a non-empty
accumulator. -/
theorem toDigitsCore_ne_nil (b : Nat) :
    ∀ fuel n acc, acc ≠ [] → Nat.toDigitsCore b fuel n acc ≠ [] := by
  intro fuel
  induction fuel with
  | zero =>
    intro n acc hacc
    rw [Nat.toDigitsCore]
    exact hacc
  | succ fuel ih =>
    intro n acc hacc
    rw [Nat.toDigitsCore]
    split
    · exact List.cons_ne_nil _ _
    · exact ih _ _ (List.cons_ne_nil _ _)

/-- The decimal representation of a natural is never empty. -/
theorem repr_data_ne_nil (n : Nat) : (Nat.repr n).data ≠ [] := by
  unfold Nat.repr
  rw [Nat.toDigits, Nat.toDigitsCore]
  split
  · exact List.cons_ne_nil _ _
  · exact toDigitsCore_ne_nil 10 n (n / 10) _ (List.cons_ne_nil _ _)

/-- Parsing the unquoted decimal digits of a natural, followed by a space
or the end of input, recovers exactly the digits. -/
theorem conninfo_parse_value_repr (n : Nat) (rest : List Char)
    (hrest : rest = [] ∨ rest.head? = some ' ') :
    conninfo_parse_value ((Nat.repr n).data ++ rest) =
      some ((Nat.repr n).data, rest) := by
  obtain ⟨d0, dtl, hd⟩ := List.exists_cons_of_ne_nil (repr_data_ne_nil n)
  have hall : ∀ c ∈ (Nat.repr n).data, (fun c => !(c == ' ')) c = true := by
    intro c hc
    simp [(repr_ne_space_quote n c hc).1]
  have htake : ((Nat.repr n).data ++ rest).takeWhile (fun c => !(c == ' ')) =
      (Nat.repr n).data := by
    rw [List.takeWhile_append_of_pos hall]
    rcases hrest with rfl | hsp
    · simp
    · cases rest with
      | nil => simp
      | cons r rtl =>
        simp only [List.head?_cons, Option.some.injEq] at hsp
        subst hsp
        simp [List.takeWhile_cons]
  have hdrop : ((Nat.repr n).data ++ rest).dropWhile (fun c => !(c == ' ')) =
      rest := by
    rw [List.dropWhile_append_of_pos hall]
    rcases hrest with rfl | hsp
    · simp
    · cases rest with
      | nil => simp
      | cons r rtl =>
        simp only [List.head?_cons, Option.some.injEq] at hsp
        subst hsp
        simp [List.dropWhile_cons]
  have hd0 : d0 ≠ '\'' := by
    have := repr_ne_space_quote n d0 (by rw [hd]; exact List.mem_cons_self _ _)
    exact this.2
  rw [hd, List.cons_append, conninfo_parse_value.eq_def]
  simp only [if_neg hd0]
  rw [conninfo_parse_unquoted, ← List.cons_append, ← hd, htake, hdrop]

/-- Modelled from the spec: parsing a `key=value` connection string as a
list of fields: skip spaces, read a key up to the `=`, parse the value
(quoted or unquoted), repeat.  `fuel` bounds the recursion; every field
consumes at least its `=`, so `input.length + 1` always suffices. -/
def conninfo_parse_pairs : Nat → List Char → Option (List (List Char × List Char))
  | 0, _ => none
  | fuel + 1, input =>
    if (input.dropWhile (fun c => c == ' ')).isEmpty then some []
    else if ((input.dropWhile (fun c => c == ' ')).takeWhile conninfoKeyChar).isEmpty then
      none
    else if ((input.dropWhile (fun c => c == ' ')).dropWhile conninfoKeyChar).head? =
        some '=' then
      match conninfo_parse_value
          (((input.dropWhile (fun c => c == ' ')).dropWhile conninfoKeyChar).tail) with
      | some (v, rest3) =>
        (conninfo_parse_pairs fuel rest3).map
          (fun l => ((input.dropWhile (fun c => c == ' ')).takeWhile conninfoKeyChar, v) :: l)
      | none => none
    else none

/-- Modelled from the spec: the conninfo parser over the whole input. -/
def conninfo_parse (input : List Char) : Option (List (List Char × List Char)) :=
  conninfo_parse_pairs (input.length + 1) input

/-- Parsing an empty input yields the empty field list. -/
theorem conninfo_parse_pairs_nil (fuel : Nat) :
    conninfo_parse_pairs (fuel + 1) [] = some [] := by
  rw [conninfo_parse_pairs]
  simp

/-- Parsing one ` key=<value text>` field: when the key is well formed and
the value text parses to `(v, rest)`, the field parser produces the pair
and continues on `rest` with one unit of fuel spent. -/
theorem conninfo_parse_pairs_field (fuel : Nat) (key T v rest : List Char)
    (hkey : key ≠ []) (hkeyc : ∀ c ∈ key, conninfoKeyChar c = true)
    (hval : conninfo_parse_value T = some (v, rest)) :
    conninfo_parse_pairs (fuel + 1) (' ' :: key ++ '=' :: T) =
      (conninfo_parse_pairs fuel rest).map (fun l => (key, v) :: l) := by
  obtain ⟨k0, ktl, rfl⟩ := List.exists_cons_of_ne_nil hkey
  have hk0 := hkeyc k0 (List.mem_cons_self _ _)
  have hktl : ∀ c ∈ ktl, conninfoKeyChar c = true := fun c hc =>
    hkeyc c (List.mem_cons_of_mem _ hc)
  have hk0parts : ¬ k0 = '=' ∧ ¬ k0 = ' ' := by
    simpa [conninfoKeyChar] using hk0
  have hk0sp : (k0 == ' ') = false := by
    simp [hk0parts.2]
  have hk0key : conninfoKeyChar k0 = true := hk0
  rw [List.cons_append, List.cons_append]
  have hdw : (' ' :: (k0 :: (ktl ++ '=' :: T))).dropWhile (fun c => c == ' ') =
      k0 :: (ktl ++ '=' :: T) := by
    simp [List.dropWhile_cons, hk0sp]
  have htake : (k0 :: (ktl ++ '=' :: T)).takeWhile conninfoKeyChar = k0 :: ktl := by
    rw [List.takeWhile_cons_of_pos hk0key, List.takeWhile_append_of_pos hktl,
      List.takeWhile_cons_of_neg (by decide), List.append_nil]
  have hdrop : (k0 :: (ktl ++ '=' :: T)).dropWhile conninfoKeyChar = '=' :: T := by
    rw [List.dropWhile_cons_of_pos hk0key, List.dropWhile_append_of_pos hktl]
    rw [List.dropWhile_cons, if_neg (by decide)]
  rw [conninfo_parse_pairs, hdw, htake, hdrop]
  simp only [List.isEmpty_cons, List.head?_cons, List.tail_cons, if_true,
    if_neg Bool.false_ne_true, if_pos rfl, hval]

/-- Fuel monotonicity: a successful parse stays the same with more fuel. -/
theorem conninfo_parse_pairs_mono :
    ∀ fuel s l, conninfo_parse_pairs fuel s = some l →
      conninfo_parse_pairs (fuel + 1) s = some l := by
  intro fuel
  induction fuel with
  | zero =>
    intro s l h
    rw [conninfo_parse_pairs] at h
    exact absurd h (by simp)
  | succ fuel ih =>
    intro s l h
    rw [conninfo_parse_pairs] at h ⊢
    by_cases hA : (s.dropWhile (fun c => c == ' ')).isEmpty
    · rw [if_pos hA] at h ⊢
      exact h
    · rw [if_neg hA] at h ⊢
      by_cases hB : ((s.dropWhile (fun c => c == ' ')).takeWhile conninfoKeyChar).isEmpty
      · rw [if_pos hB] at h
        exact absurd h (by simp)
      · rw [if_neg hB] at h ⊢
        by_cases hC : ((s.dropWhile (fun c => c == ' ')).dropWhile conninfoKeyChar).head? =
            some '='
        · rw [if_pos hC] at h ⊢
          cases hV : conninfo_parse_value
              (((s.dropWhile (fun c => c == ' ')).dropWhile conninfoKeyChar).tail) with
          | none =>
            rw [hV] at h
            exact absurd h (by simp)
          | some p =>
            obtain ⟨v, rest3⟩ := p
            rw [hV] at h
            have h' : (conninfo_parse_pairs fuel rest3).map
                (fun l => ((s.dropWhile (fun c => c == ' ')).takeWhile conninfoKeyChar,
                  v) :: l) = some l := h
            show (conninfo_parse_pairs (fuel + 1) rest3).map
                (fun l => ((s.dropWhile (fun c => c == ' ')).takeWhile conninfoKeyChar,
                  v) :: l) = some l
            cases hP : conninfo_parse_pairs fuel rest3 with
            | none =>
              rw [hP] at h'
              exact absurd h' (by simp)
            | some l' =>
              rw [hP] at h'
              rw [ih rest3 l' hP]
              exact h'
        · rw [if_neg hC] at h
          exact absurd h (by simp)

/-- Fuel monotonicity, for any larger fuel. -/
theorem conninfo_parse_pairs_le (fuel fuel' : Nat) (s : List Char)
    (l : List (List Char × List Char)) (hle : fuel ≤ fuel')
    (h : conninfo_parse_pairs fuel s = some l) :
    conninfo_parse_pairs fuel' s = some l := by
  induction hle with
  | refl => exact h
  | step _ ih => exact conninfo_parse_pairs_mono _ _ _ ih

/-- The escaped characters are exactly the specification's escaping: each
single quote or backslash is prefixed with a backslash, every other
character is untouched. -/
theorem escape_conninfo_chars_eq_flatMap (v : List Char) :
    escape_conninfo_chars v =
      v.flatMap (fun c => if c = '\'' ∨ c = '\\' then ['\\', c] else [c]) := by
  induction v with
  | nil => rfl
  | cons c cs ih =>
    by_cases hc : c = '\'' ∨ c = '\\'
    · rw [escape_conninfo_chars, if_pos hc, List.flatMap_cons, if_pos hc, ih]
      rfl
    · rw [escape_conninfo_chars, if_neg hc, List.flatMap_cons, if_neg hc, ih]
      rfl

/-- A connection string carrying the four fields of the claim, each built
with the source's `make_conninfo_field_str` / `make_conninfo_field_int`. -/
def build_conninfo (host : List Char) (port : Nat) (dbname user : List Char) :
    List Char :=
  make_conninfo_field_str "host".data host ++
    (make_conninfo_field_int "port".data port ++
      (make_conninfo_field_str "dbname".data dbname ++
        make_conninfo_field_str "user".data user))

/-- Appending to a string field re-associates into the field-parser
shape. -/
theorem make_conninfo_field_str_append (key v rest : List Char) :
    make_conninfo_field_str key v ++ rest =
      ' ' :: key ++ '=' :: (escape_conninfo_value v ++ rest) := by
  simp [make_conninfo_field_str, List.append_assoc]

/-- Appending to an int field re-associates into the field-parser shape. -/
theorem make_conninfo_field_int_append (key : List Char) (n : Nat)
    (rest : List Char) :
    make_conninfo_field_int key n ++ rest =
      ' ' :: key ++ '=' :: ((Nat.repr n).data ++ rest) := by
  simp [make_conninfo_field_int, List.append_assoc]

/-- Claim C4: connection-string field escaping round-trips: for every
ASCII printable string value, `escape_conninfo_value` wraps the value in
single quotes and prefixes each single quote and backslash with a
backslash (and escapes nothing else), so that parsing a connection string
built with `make_conninfo_field_str` (and `make_conninfo_field_int` for
the port) recovers exactly the original host, port, dbname and user
values. -/
theorem conninfo_escape_roundtrip (host dbname user : List Char) (port : Nat)
    (hh : ∀ c ∈ host, isPrintableAscii c = true)
    (hd : ∀ c ∈ dbname, isPrintableAscii c = true)
    (hu : ∀ c ∈ user, isPrintableAscii c = true) :
    escape_conninfo_value host =
      '\'' :: host.flatMap
        (fun c => if c = '\'' ∨ c = '\\' then ['\\', c] else [c]) ++ ['\''] ∧
    conninfo_parse (build_conninfo host port dbname user) =
      some [("host".data, host), ("port".data, (Nat.repr port).data),
        ("dbname".data, dbname), ("user".data, user)] := by
  constructor
  · rw [escape_conninfo_value, escape_conninfo_chars_eq_flatMap]
  · have step4 : ∀ f : Nat,
        conninfo_parse_pairs (f + 1 + 1)
          (make_conninfo_field_str "user".data user) =
          some [("user".data, user)] := by
      intro f
      have hval : conninfo_parse_value (escape_conninfo_value user ++ []) =
          some (user, []) := conninfo_parse_value_escaped user []
      have heq : make_conninfo_field_str "user".data user =
          ' ' :: "user".data ++ '=' :: (escape_conninfo_value user ++ []) := by
        simp [make_conninfo_field_str]
      rw [heq,
        conninfo_parse_pairs_field (f + 1) _ _ _ _ (by decide) (by decide) hval,
        conninfo_parse_pairs_nil f]
      rfl
    have step3 : ∀ f : Nat,
        conninfo_parse_pairs (f + 1 + 1 + 1)
          (make_conninfo_field_str "dbname".data dbname ++
            make_conninfo_field_str "user".data user) =
          some [("dbname".data, dbname), ("user".data, user)] := by
      intro f
      rw [make_conninfo_field_str_append,
        conninfo_parse_pairs_field (f + 1 + 1) _ _ _ _ (by decide) (by decide)
          (conninfo_parse_value_escaped dbname _),
        step4 f]
      rfl
    have step2 : ∀ f : Nat,
        conninfo_parse_pairs (f + 1 + 1 + 1 + 1)
          (make_conninfo_field_int "port".data port ++
            (make_conninfo_field_str "dbname".data dbname ++
              make_conninfo_field_str "user".data user)) =
          some [("port".data, (Nat.repr port).data), ("dbname".data, dbname),
            ("user".data, user)] := by
      intro f
      have hsp : (make_conninfo_field_str "dbname".data dbname ++
          make_conninfo_field_str "user".data user).head? = some ' ' := by
        simp [make_conninfo_field_str]
      rw [make_conninfo_field_int_append,
        conninfo_parse_pairs_field (f + 1 + 1 + 1) _ _ _ _ (by decide) (by decide)
          (conninfo_parse_value_repr port _ (Or.inr hsp)),
        step3 f]
      rfl
    have step1 : ∀ f : Nat,
        conninfo_parse_pairs (f + 1 + 1 + 1 + 1 + 1)
          (build_conninfo host port dbname user) =
          some [("host".data, host), ("port".data, (Nat.repr port).data),
            ("dbname".data, dbname), ("user".data, user)] := by
      intro f
      rw [build_conninfo, make_conninfo_field_str_append,
        conninfo_parse_pairs_field (f + 1 + 1 + 1 + 1) _ _ _ _ (by decide) (by decide)
          (conninfo_parse_value_escaped host _),
        step2 f]
      rfl
    have hlen : 4 ≤ (build_conninfo host port dbname user).length := by
      simp [build_conninfo, make_conninfo_field_str, make_conninfo_field_int,
        escape_conninfo_value]
      try omega
    rw [conninfo_parse]
    exact conninfo_parse_pairs_le (0 + 1 + 1 + 1 + 1 + 1) _ _ _ (by omega) (step1 0)

/-- Witness for C4: a concrete conninfo whose host value contains a
quote and a backslash round-trips through build and parse. -/
theorem conninfo_escape_roundtrip_witness :
    escape_conninfo_value ['o', '\'', 'b', '\\', 'c'] =
      '\'' :: (['o', '\'', 'b', '\\', 'c'].flatMap
        (fun c => if c = '\'' ∨ c = '\\' then ['\\', c] else [c])) ++ ['\''] ∧
    conninfo_parse (build_conninfo ['o', '\'', 'b', '\\', 'c'] 9876
        "postgres".data "autoctl".data) =
      some [("host".data, ['o', '\'', 'b', '\\', 'c']),
        ("port".data, (Nat.repr 9876).data),
        ("dbname".data, "postgres".data), ("user".data, "autoctl".data)] :=
  conninfo_escape_roundtrip ['o', '\'', 'b', '\\', 'c'] "postgres".data
    "autoctl".data 9876 (by decide) (by decide) (by decide)
